import Mathlib

/-
Shallow embedding of the capability-registry / bounded-agent-loop core of the
repository, taken from `04_MCP/mcp_server_example.py` (SimpleMCPServer:
register_resource, register_tool, read_resource, call_tool, calculator_tool,
echo_tool) and `05_Agents/openai_agent.py` (calculator, get_weather,
search_knowledge_base, TOOL_FUNCTIONS, execute_tool_call, run_agent).

Modelling conventions:
* Python values crossing the tool boundary are modelled by `PyVal`; Python
  floats are modelled by `PyRat`, exact rationals in normalized form (exact
  for every value any theorem below evaluates; the sources only exercise
  values with small integral results).
* A raised Python exception is modelled by `Except.error msg`; exception
  message texts are simplified (the theorems below never depend on the exact
  wording of an exception message, only on the constant envelope texts that
  appear verbatim in the source, such as "Tool not found").
* The `async` functions of the MCP example involve no actual concurrency in
  the source (they are awaited sequentially), so they are embedded as pure
  functions.
* `run_agent` is modelled under its API-key-configured path (the unconfigured
  path returns before the loop starts); the external OpenAI chat-completions
  call is modelled by an explicit model-boundary oracle parameter.
-/

/-- Exact rational number in lowest terms with positive denominator, the
model of a Python float.  Every constructor below normalizes, so structural
equality coincides with rational equality. -/
structure PyRat where
  num : ℤ
  den : ℕ
deriving DecidableEq

/-- Normalized rational `n / d` (for `d ≠ 0`; `d = 0` is mapped to 0 and is
never reached by the operations below, whose zero-divisor cases raise
first). -/
def pyRatNorm (n d : ℤ) : PyRat :=
  let sn : ℤ := if d < 0 then -n else n
  let dd : ℕ := d.natAbs
  let g : ℕ := Nat.gcd sn.natAbs dd
  if g = 0 then ⟨0, 1⟩ else ⟨sn / (g : ℤ), dd / g⟩

/-- Embedding of an integer as a Python float value. -/
def PyRat.ofInt (n : ℤ) : PyRat := ⟨n, 1⟩

/-- Float addition. -/
def PyRat.add (a b : PyRat) : PyRat :=
  pyRatNorm (a.num * (b.den : ℤ) + b.num * (a.den : ℤ)) ((a.den : ℤ) * (b.den : ℤ))

/-- Float subtraction. -/
def PyRat.sub (a b : PyRat) : PyRat :=
  pyRatNorm (a.num * (b.den : ℤ) - b.num * (a.den : ℤ)) ((a.den : ℤ) * (b.den : ℤ))

/-- Float multiplication. -/
def PyRat.mul (a b : PyRat) : PyRat :=
  pyRatNorm (a.num * b.num) ((a.den : ℤ) * (b.den : ℤ))

/-- Float division (callers guard the zero divisor). -/
def PyRat.div (a b : PyRat) : PyRat :=
  pyRatNorm (a.num * (b.den : ℤ)) ((a.den : ℤ) * b.num)

/-- Float negation. -/
def PyRat.neg (a : PyRat) : PyRat := ⟨-a.num, a.den⟩

/-- Natural-number power. -/
def PyRat.npow (a : PyRat) : ℕ → PyRat
  | 0 => ⟨1, 1⟩
  | n + 1 => (PyRat.npow a n).mul a

/-- Integer power (callers guard `0` to a negative power). -/
def PyRat.zpow (a : PyRat) (m : ℤ) : PyRat :=
  if 0 ≤ m then a.npow m.toNat
  else pyRatNorm ((a.npow m.natAbs).den : ℤ) (a.npow m.natAbs).num

/-- Python values that cross the tool boundary in the sources: ints, floats
(modelled as exact rationals), strings, booleans and `None`. -/
inductive PyVal where
  | int (n : ℤ)
  | float (q : PyRat)
  | str (s : String)
  | bool (b : Bool)
  | none
deriving DecidableEq

/-- Digit-string to natural number; `Option.none` when the list is empty or
any character is not a digit. -/
def parseNatDigits? (cs : List Char) : Option ℕ :=
  if cs.isEmpty then Option.none
  else cs.foldl
    (fun acc c =>
      match acc with
      | Option.some a =>
          if c.isDigit then Option.some (a * 10 + (c.toNat - 48)) else Option.none
      | Option.none => Option.none)
    (Option.some 0)

/-- Whitespace as Python `float()` strips it. -/
def isPySpace (c : Char) : Bool := c = ' ' || c = '\t' || c = '\n' || c = '\r'

/-- Strip leading and trailing whitespace from a character list. -/
def trimChars (cs : List Char) : List Char :=
  ((cs.dropWhile isPySpace).reverse.dropWhile isPySpace).reverse

/-- Parse of a decimal literal the way Python `float()` accepts it, for the
common forms `[sign] digits [. digits]` (surrounding whitespace stripped);
scientific notation and the inf/nan spellings are outside the modelled
subset (no theorem below exercises them). -/
def parseFloat? (s : String) : Option PyRat :=
  let t := trimChars s.toList
  let signed : Bool × List Char :=
    match t with
    | '-' :: rest => (true, rest)
    | '+' :: rest => (false, rest)
    | _ => (false, t)
  let u := signed.2
  if u.contains '.' then
    match u.span (fun c => !(c == '.')) with
    | (ip, _ :: fp) =>
        if fp.contains '.' then Option.none
        else
          match parseNatDigits? ip, parseNatDigits? fp with
          | Option.some n, Option.some f =>
              let v : PyRat :=
                pyRatNorm ((n : ℤ) * (10 : ℤ) ^ fp.length + (f : ℤ)) ((10 : ℤ) ^ fp.length)
              Option.some (if signed.1 then v.neg else v)
          | _, _ => Option.none
    | (_, []) => Option.none
  else
    match parseNatDigits? u with
    | Option.some n => Option.some (if signed.1 then PyRat.ofInt (-(n : ℤ)) else PyRat.ofInt n)
    | Option.none => Option.none

/-- Rendering of a Python float by `str()`: exact for integral values (the
only float values rendered by any theorem below); non-integral rationals fall
back to a fraction notation. -/
def floatRepr (q : PyRat) : String :=
  if q.den = 1 then toString q.num ++ ".0"
  else toString q.num ++ "/" ++ toString q.den

/-- Python `str()` on a `PyVal`. -/
def pyStr : PyVal → String
  | .int n => toString n
  | .float q => floatRepr q
  | .str s => s
  | .bool b => cond b "True" "False"
  | .none => "None"

/-- Python `float()` on a `PyVal`: numbers and booleans convert, numeric
strings parse, anything else raises. -/
def pyFloatE : PyVal → Except String PyRat
  | .int n => .ok (PyRat.ofInt n)
  | .float q => .ok q
  | .bool b => .ok (PyRat.ofInt (cond b 1 0))
  | .str s =>
      match parseFloat? s with
      | Option.some q => .ok q
      | Option.none => .error ("could not convert string to float: " ++ s)
  | .none => .error "float() argument must be a string or a number, not NoneType"

/-- Python keyword-argument binding for one declared parameter: the supplied
value if present, the default if declared, otherwise a TypeError (raised by
the interpreter at the `handler(**arguments)` call site of `call_tool` /
`execute_tool_call`; message text simplified). -/
def bindKwarg (kwargs : List (String × PyVal)) (p : String) (dflt : Option PyVal) :
    Except String PyVal :=
  match kwargs.lookup p with
  | Option.some v => .ok v
  | Option.none =>
      match dflt with
      | Option.some d => .ok d
      | Option.none => .error ("missing required argument: " ++ p)

/-- Python keyword-argument binding, rejection half: an argument name that is
not a declared parameter raises a TypeError at the call site. -/
def checkKwargNames (params : List String) (kwargs : List (String × PyVal)) :
    Except String Unit :=
  match kwargs.find? (fun kv => !(params.contains kv.1)) with
  | Option.some kv => .error ("unexpected keyword argument: " ++ kv.1)
  | Option.none => .ok ()

/- ### The MCP server (`04_MCP/mcp_server_example.py`) -/

/-- The constant `inputSchema` dict that `register_tool` attaches to every
tool: `{"type": "object", "properties": {}}`. -/
structure InputSchema where
  schemaType : String
  properties : List String
deriving DecidableEq

/-- A registered resource dict (`register_resource`). -/
structure Resource where
  uri : String
  name : String
  mimeType : String
  description : String
  content : String
deriving DecidableEq

/-- A registered tool dict (`register_tool`); the handler is the Python
coroutine, modelled as a kwargs-consuming function that may raise. -/
structure Tool where
  name : String
  description : String
  handler : List (String × PyVal) → Except String PyVal
  inputSchema : InputSchema

/-- The `SimpleMCPServer` object state. -/
structure SimpleMCPServer where
  name : String
  version : String
  resources : List Resource
  tools : List Tool

/-- `SimpleMCPServer.__init__`: empty resource and tool lists. -/
def mkServer (name : String := "demo-mcp-server") : SimpleMCPServer :=
  { name := name, version := "1.0.0", resources := [], tools := [] }

/-- `register_resource`: appends unconditionally, with the derived
description `"Resource: " + name`. -/
def register_resource (server : SimpleMCPServer) (uri name mime_type content : String) :
    SimpleMCPServer :=
  { server with
      resources := server.resources ++
        [{ uri := uri, name := name, mimeType := mime_type,
           description := "Resource: " ++ name, content := content }] }

/-- `register_tool`: appends unconditionally, always attaching the empty
`{"type": "object", "properties": {}}` schema. -/
def register_tool (server : SimpleMCPServer) (name description : String)
    (handler : List (String × PyVal) → Except String PyVal) : SimpleMCPServer :=
  { server with
      tools := server.tools ++
        [{ name := name, description := description, handler := handler,
           inputSchema := { schemaType := "object", properties := [] } }] }

/-- Return value of `call_tool`: either the
`{"content": [{"type": "text", "text": ...}]}` success dict or the
`{"error": ...}` dict. -/
inductive ToolResponse where
  | content (text : String)
  | error (msg : String)
deriving DecidableEq

/-- Return value of `read_resource`: either the `{"contents": [...]}` dict or
`{"error": "Resource not found"}`. -/
inductive ResourceResponse where
  | contents (uri mimeType text : String)
  | error (msg : String)
deriving DecidableEq

/-- Body of the `try` block of `call_tool` for the matched tool: the handler
result is stringified into the content envelope, a raised exception is caught
and becomes the error envelope. -/
def runTool (t : Tool) (arguments : List (String × PyVal)) : ToolResponse :=
  match t.handler arguments with
  | .ok result => .content (pyStr result)
  | .error e => .error e

/-- `call_tool`: scan the tool list in registration order, run the first tool
whose name matches, otherwise return `{"error": "Tool not found"}`. -/
def call_tool (server : SimpleMCPServer) (tool_name : String)
    (arguments : List (String × PyVal)) : ToolResponse :=
  match server.tools.find? (fun t => t.name == tool_name) with
  | Option.some t => runTool t arguments
  | Option.none => .error "Tool not found"

/-- `read_resource`: scan the resource list in registration order, return the
contents envelope of the first uri match, otherwise
`{"error": "Resource not found"}`. -/
def read_resource (server : SimpleMCPServer) (uri : String) : ResourceResponse :=
  match server.resources.find? (fun r => r.uri == uri) with
  | Option.some r => .contents r.uri r.mimeType r.content
  | Option.none => .error "Resource not found"

/-- The arithmetic taken by `calculator_tool` from its `operations` dict of
lambdas; the division lambda is `x / y if y != 0 else "Error: Division by
zero"`.  Only called under the `operation in operations` guard, so the final
branch is the division lambda. -/
def calcOp (op : String) (x y : PyRat) : PyVal :=
  if op = "add" then .float (x.add y)
  else if op = "subtract" then .float (x.sub y)
  else if op = "multiply" then .float (x.mul y)
  else if y.num ≠ 0 then .float (x.div y) else .str "Error: Division by zero"

/-- `calculator_tool(operation, a, b)` of the MCP example: for a known
operation, `float()`-coerce both operands (left to right, so a bad `a`
raises first) and format `f"{operation}({a}, {b}) = {result}"` over the
original argument values; otherwise report the unknown operation. -/
def calculator_tool (kwargs : List (String × PyVal)) : Except String PyVal := do
  let _ ← checkKwargNames ["operation", "a", "b"] kwargs
  let operation ← bindKwarg kwargs "operation" Option.none
  let a ← bindKwarg kwargs "a" Option.none
  let b ← bindKwarg kwargs "b" Option.none
  match operation with
  | .str op =>
      if op ∈ ["add", "subtract", "multiply", "divide"] then do
        let x ← pyFloatE a
        let y ← pyFloatE b
        let result := calcOp op x y
        pure (.str (pyStr operation ++ "(" ++ pyStr a ++ ", " ++ pyStr b ++ ") = " ++
          pyStr result))
      else pure (.str ("Unknown operation: " ++ pyStr operation))
  | _ => pure (.str ("Unknown operation: " ++ pyStr operation))

/-- `echo_tool(message)`: returns `f"Echo: {message}"`. -/
def echo_tool (kwargs : List (String × PyVal)) : Except String PyVal := do
  let _ ← checkKwargNames ["message"] kwargs
  let message ← bindKwarg kwargs "message" Option.none
  pure (.str ("Echo: " ++ pyStr message))

/-- Handler with the shape of spec scenario 3: a `divide(a, b)` capability
whose handler raises on `b == 0` (used as a sample registered capability in
witnesses; `Tool.handler` is arbitrary, this is one instance). -/
def divide_tool (kwargs : List (String × PyVal)) : Except String PyVal := do
  let _ ← checkKwargNames ["a", "b"] kwargs
  let a ← bindKwarg kwargs "a" Option.none
  let b ← bindKwarg kwargs "b" Option.none
  let x ← pyFloatE a
  let y ← pyFloatE b
  if y.num = 0 then .error "division by zero" else pure (.float (x.div y))

/- ### The agent (`05_Agents/openai_agent.py`) -/

/-- JSON string escaping used by `json.dumps` for the characters that occur in
this development (quote and backslash). -/
def jsonEscape (s : String) : String :=
  String.mk (s.toList.foldr
    (fun c acc =>
      (if c = '"' then ['\\', '"'] else if c = '\\' then ['\\', '\\'] else [c]) ++ acc)
    [])

/-- `json.dumps` of a scalar Python value. -/
def jsonVal : PyVal → String
  | .int n => toString n
  | .float q => floatRepr q
  | .str s => "\"" ++ jsonEscape s ++ "\""
  | .bool b => cond b "true" "false"
  | .none => "null"

/-- Comma-join of the rendered entries of a dict. -/
def joinComma : List String → String
  | [] => ""
  | [s] => s
  | s :: rest => s ++ ", " ++ joinComma rest

/-- `json.dumps` of a flat Python dict (every dict the agent tools return is
flat), with the default ", " / ": " separators. -/
def jsonDict (entries : List (String × PyVal)) : String :=
  "\x7b" ++
    joinComma (entries.map (fun kv => "\"" ++ jsonEscape kv.1 ++ "\": " ++ jsonVal kv.2)) ++
  "\x7d"

/-- ASCII lower-casing of one character as Python `str.lower()` does on the
ASCII text the sources use. -/
def lowerChar (c : Char) : Char :=
  if 65 ≤ c.toNat ∧ c.toNat ≤ 90 then Char.ofNat (c.toNat + 32) else c

/-- Python `str.lower()` on the ASCII text the sources use. -/
def strLower (s : String) : String := String.mk (s.toList.map lowerChar)

/-- Helper for Python substring membership: does `needle` occur inside the
character list? -/
def containsChars (needle : List Char) : List Char → Bool
  | [] => needle.isEmpty
  | c :: rest => needle.isPrefixOf (c :: rest) || containsChars needle rest

/-- Python `needle in hay` substring membership on strings. -/
def strContains (hay needle : String) : Bool := containsChars needle.toList hay.toList

/-- Numeric view of a `PyVal` as Python arithmetic sees it: booleans are ints;
the flag records whether the operand was a float (so the result is a float). -/
def asNum? : PyVal → Option (Bool × PyRat)
  | .int n => Option.some (false, PyRat.ofInt n)
  | .float q => Option.some (true, q)
  | .bool b => Option.some (false, PyRat.ofInt (cond b 1 0))
  | _ => Option.none

/-- Python `+`: numeric addition (int if both operands int-like), string
concatenation, otherwise TypeError. -/
def pyAdd : PyVal → PyVal → Except String PyVal
  | .str s, .str t => .ok (.str (s ++ t))
  | a, b =>
      match asNum? a, asNum? b with
      | Option.some (fa, x), Option.some (fb, y) =>
          .ok (if fa || fb then .float (x.add y) else .int (x.add y).num)
      | _, _ => .error "unsupported operand types for +"

/-- Python `-` on numbers, TypeError otherwise. -/
def pySub (a b : PyVal) : Except String PyVal :=
  match asNum? a, asNum? b with
  | Option.some (fa, x), Option.some (fb, y) =>
      .ok (if fa || fb then .float (x.sub y) else .int (x.sub y).num)
  | _, _ => .error "unsupported operand types for -"

/-- Python `*` on numbers, TypeError otherwise (string repetition does not
arise in the sources). -/
def pyMul (a b : PyVal) : Except String PyVal :=
  match asNum? a, asNum? b with
  | Option.some (fa, x), Option.some (fb, y) =>
      .ok (if fa || fb then .float (x.mul y) else .int (x.mul y).num)
  | _, _ => .error "unsupported operand types for *"

/-- Python `/` (true division, always float), raising ZeroDivisionError on a
zero divisor and TypeError on non-numbers. -/
def pyDiv (a b : PyVal) : Except String PyVal :=
  match asNum? a, asNum? b with
  | Option.some (_, x), Option.some (_, y) =>
      if y.num = 0 then .error "division by zero" else .ok (.float (x.div y))
  | _, _ => .error "unsupported operand types for /"

/-- Python `!= 0` comparison against a `PyVal` (non-numbers compare unequal
to 0 without raising). -/
def pyNeZero : PyVal → Bool
  | .int n => n ≠ 0
  | .float q => q.num ≠ 0
  | .bool b => b
  | _ => true

/-- Python `**` on numbers: exact for integral exponents (int result for
non-negative int-like operands, float otherwise; `0 ** negative` raises).
Non-integral exponents produce irrational values outside the exact-rational
float model and are modelled as 0 — no theorem below evaluates that branch. -/
def pyPow (a b : PyVal) : Except String PyVal :=
  match asNum? a, asNum? b with
  | Option.some (fa, x), Option.some (fb, y) =>
      if y.den = 1 then
        if x.num = 0 ∧ y.num < 0 then .error "zero cannot be raised to a negative power"
        else
          let r := x.zpow y.num
          if fa || fb || y.num < 0 then .ok (.float r) else .ok (.int r.num)
      else .ok (.float (PyRat.ofInt 0))
  | _, _ => .error "unsupported operand types for pow"

/-- Python `math.sqrt` under the exact-rational float model: raises on
negative input, exact on perfect squares (integer-square-root based
approximation elsewhere; no theorem below evaluates a non-square input). -/
def mathSqrt (a : PyVal) : Except String PyVal :=
  match asNum? a with
  | Option.some (_, x) =>
      if x.num < 0 then .error "math domain error"
      else .ok (.float (pyRatNorm (Nat.sqrt x.num.toNat : ℤ) (Nat.sqrt x.den : ℤ)))
  | Option.none => .error "must be a real number"

/-- Agent tool `calculator(operation, a, b)`: the `operations` dict is built
eagerly (so every entry is computed, and a fault in any entry propagates),
the division entry is guarded by `b != 0`, the sqrt entry is conditional on
`operation == "sqrt"`, and the requested entry is looked up with the
`"Unknown operation"` default.  Returns the result dict. -/
def calculator (kwargs : List (String × PyVal)) :
    Except String (List (String × PyVal)) := do
  let _ ← checkKwargNames ["operation", "a", "b"] kwargs
  let operation ← bindKwarg kwargs "operation" Option.none
  let a ← bindKwarg kwargs "a" Option.none
  let b ← bindKwarg kwargs "b" Option.none
  let addv ← pyAdd a b
  let subv ← pySub a b
  let mulv ← pyMul a b
  let divv ← if pyNeZero b then pyDiv a b else pure (PyVal.str "Error: Division by zero")
  let powv ← pyPow a b
  let sqrtv ← if operation = PyVal.str "sqrt" then mathSqrt a else pure PyVal.none
  let operations : List (String × PyVal) :=
    [("add", addv), ("subtract", subv), ("multiply", mulv), ("divide", divv),
     ("power", powv), ("sqrt", sqrtv)]
  let result :=
    match operation with
    | .str op => ((operations.lookup op).getD (PyVal.str "Unknown operation"))
    | _ => PyVal.str "Unknown operation"
  pure [("operation", operation), ("result", result),
        ("calculation",
          PyVal.str (pyStr operation ++ "(" ++ pyStr a ++ ", " ++ pyStr b ++ ") = " ++
            pyStr result))]

/-- The simulated weather table of `get_weather`. -/
def weatherData : List (String × (ℤ × String × ℤ)) :=
  [("new york", (22, "Sunny", 65)), ("london", (15, "Cloudy", 80)),
   ("tokyo", (25, "Clear", 70)), ("paris", (18, "Rainy", 85))]

/-- Agent tool `get_weather(location, unit="celsius")`: table lookup on the
lower-cased location with an "Unknown" default, Fahrenheit conversion
`temp * 9 / 5 + 32` (a float in Python) when requested.  The wall-clock
`timestamp` field is external input and is modelled by a fixed placeholder
string (no theorem below reads it). -/
def get_weather (kwargs : List (String × PyVal)) :
    Except String (List (String × PyVal)) := do
  let _ ← checkKwargNames ["location", "unit"] kwargs
  let location ← bindKwarg kwargs "location" Option.none
  let unit ← bindKwarg kwargs "unit" (Option.some (PyVal.str "celsius"))
  match location with
  | .str locS =>
      let base := (weatherData.lookup (strLower locS)).getD (20, "Unknown", 60)
      let tempVal : PyVal :=
        if unit = PyVal.str "fahrenheit" then
          .float ((PyRat.ofInt (base.1 * 9)).div (PyRat.ofInt 5) |>.add (PyRat.ofInt 32))
        else .int base.1
      let unitVal : PyVal :=
        if unit = PyVal.str "fahrenheit" then .str "°F" else .str "°C"
      pure [("location", location), ("temp", tempVal), ("condition", .str base.2.1),
            ("humidity", .int base.2.2), ("unit", unitVal),
            ("timestamp", .str "<timestamp>")]
  | _ => .error "str object expected for lower()"

/-- The knowledge table of `search_knowledge_base`, in insertion order. -/
def knowledge : List (String × String) :=
  [("python", "Python is a high-level programming language known for readability and versatility."),
   ("ai", "Artificial Intelligence enables machines to learn and make decisions."),
   ("agent", "AI agents are autonomous systems that can perceive, reason, and act."),
   ("llm", "Large Language Models are neural networks trained on vast text data.")]

/-- Agent tool `search_knowledge_base(query)`: first key (in insertion order)
contained in the lower-cased query wins. -/
def search_knowledge_base (kwargs : List (String × PyVal)) :
    Except String (List (String × PyVal)) := do
  let _ ← checkKwargNames ["query"] kwargs
  let query ← bindKwarg kwargs "query" Option.none
  match query with
  | .str qs =>
      match knowledge.find? (fun kv => strContains (strLower qs) kv.1) with
      | Option.some kv =>
          pure [("found", .bool true), ("query", query), ("answer", .str kv.2)]
      | Option.none =>
          pure [("found", .bool false), ("query", query),
                ("answer", .str "No information found.")]
  | _ => .error "str object expected for lower()"

/-- The `TOOL_FUNCTIONS` dispatch dict of the agent. -/
def TOOL_FUNCTIONS :
    List (String × (List (String × PyVal) → Except String (List (String × PyVal)))) :=
  [("calculator", calculator), ("get_weather", get_weather),
   ("search_knowledge_base", search_knowledge_base)]

/-- One structured tool-call directive from the model boundary; the JSON
argument text is modelled as the already-decoded argument mapping. -/
structure ToolCall where
  id : String
  name : String
  arguments : List (String × PyVal)
deriving DecidableEq

/-- Message roles occurring in the agent transcript. -/
inductive Role where
  | system
  | user
  | assistant
  | tool
deriving DecidableEq

/-- One transcript entry: an OpenAI chat message.  For `tool` messages the
source sets `tool_call_id` and `name`; they are empty otherwise. -/
structure Message where
  role : Role
  content : String
  toolCalls : List ToolCall
  toolCallId : String
  name : String
deriving DecidableEq

/-- Outcome of one `client.chat.completions.create` call: the assistant
message, or a raised exception (the `BoundaryUnavailable` case). -/
inductive ModelOutcome where
  | reply (m : Message)
  | exn (msg : String)

/-- The external model boundary, abstracted as a function of the transcript it
is shown. -/
abbrev ModelBoundary := List Message → ModelOutcome

/-- `execute_tool_call`: look the function up in `TOOL_FUNCTIONS`; a found
function is applied to the arguments with NO exception handling (a raised
fault propagates to the caller), and its dict result is `json.dumps`-ed; an
unknown name yields the serialized `{"error": "Unknown function: ..."}`. -/
def execute_tool_call (tc : ToolCall) : Except String String :=
  match TOOL_FUNCTIONS.lookup tc.name with
  | Option.some f =>
      match f tc.arguments with
      | .ok d => .ok (jsonDict d)
      | .error e => .error e
  | Option.none => .ok (jsonDict [("error", .str ("Unknown function: " ++ tc.name))])

/-- The `{"role": "tool", "tool_call_id": ..., "name": ..., "content": ...}`
message appended for one executed tool call. -/
def mkToolMessage (tc : ToolCall) (content : String) : Message :=
  { role := .tool, content := content, toolCalls := [], toolCallId := tc.id,
    name := tc.name }

/-- The `for tool_call in message.tool_calls` loop: execute sequentially in
the given order, appending one tool message per executed call; a raised
fault stops the loop, keeping the messages appended so far and reporting the
exception. -/
def execToolMsgs : List ToolCall → List Message → List Message × Option String
  | [], messages => (messages, Option.none)
  | tc :: rest, messages =>
      match execute_tool_call tc with
      | .ok content => execToolMsgs rest (messages ++ [mkToolMessage tc content])
      | .error e => (messages, Option.some e)

/-- How one `run_agent` invocation ended: final answer printed and loop broken;
the `except` branch printed the error and broke; or the `while` condition
failed (iteration ceiling exhausted). -/
inductive AgentOutcome where
  | answered (text : String)
  | errored (msg : String)
  | exhausted
deriving DecidableEq

/-- Observable result of `run_agent`: how the loop ended, the final transcript,
the final value of `iteration`, the number of model-boundary calls made, and
whether the post-loop `iteration >= max_iterations` report fired. -/
structure RunResult where
  outcome : AgentOutcome
  messages : List Message
  iteration : ℕ
  modelCalls : ℕ
  ceilingReported : Bool
deriving DecidableEq

/-- The agent loop of `run_agent`.  `remaining` is the number of loop passes
the `while iteration < max_iterations` guard still permits
(`max_iterations - iteration`); each pass increments `iteration`, calls the
model boundary once, appends the reply, and either breaks with the final
answer (no tool calls), executes the tool calls and continues, or breaks on a
raised exception (from the model call or from a tool execution — both are
caught by the single `try/except` around the loop body).  Every exit computes
the post-loop `iteration >= max_iterations` report from the final counter. -/
def runFrom (model : ModelBoundary) (max_iterations : ℕ) :
    ℕ → List Message → ℕ → ℕ → RunResult
  | 0, messages, iteration, calls =>
      ⟨.exhausted, messages, iteration, calls, decide (max_iterations ≤ iteration)⟩
  | remaining + 1, messages, iteration, calls =>
      match model messages with
      | .exn e =>
          ⟨.errored e, messages, iteration + 1, calls + 1,
            decide (max_iterations ≤ iteration + 1)⟩
      | .reply m =>
          if m.toolCalls.isEmpty then
            ⟨.answered m.content, messages ++ [m], iteration + 1, calls + 1,
              decide (max_iterations ≤ iteration + 1)⟩
          else
            match execToolMsgs m.toolCalls (messages ++ [m]) with
            | (msgs2, Option.none) =>
                runFrom model max_iterations remaining msgs2 (iteration + 1) (calls + 1)
            | (msgs2, Option.some e) =>
                ⟨.errored e, msgs2, iteration + 1, calls + 1,
                  decide (max_iterations ≤ iteration + 1)⟩

/-- The system instruction `run_agent` seeds the transcript with. -/
def systemPrompt : String :=
  "You are a helpful AI agent with access to tools.\n            Use tools when needed to answer questions accurately.\n            Always explain your reasoning."

/-- The two seed turns of every session: system instruction, then the user
query. -/
def initialMessages (userQuery : String) : List Message :=
  [{ role := .system, content := systemPrompt, toolCalls := [], toolCallId := "", name := "" },
   { role := .user, content := userQuery, toolCalls := [], toolCallId := "", name := "" }]

/-- `run_agent(user_query, max_iterations=5)` under the API-key-configured
path, with the OpenAI call abstracted as the `model` oracle: run the loop
from `iteration = 0` on the seeded transcript. -/
def run_agent (model : ModelBoundary) (user_query : String)
    (max_iterations : ℕ := 5) : RunResult :=
  runFrom model max_iterations max_iterations (initialMessages user_query) 0 0

/- ### Concrete fixtures used by the theorems below -/

/-- Value of an `Except.ok`, with a default for the error case. -/
def okValue : Except String String → String
  | .ok s => s
  | .error _ => ""

/-- The MCP server of the demo after registering the source's calculator. -/
def calcServer : SimpleMCPServer :=
  register_tool mkServer "calculator" "Perform basic arithmetic operations" calculator_tool

/-- The MCP server of the demo after registering the source's echo tool. -/
def echoServer : SimpleMCPServer :=
  register_tool mkServer "echo" "Echo back a message" echo_tool

/-- A server with the raising `divide` capability of spec scenario 3. -/
def divServer : SimpleMCPServer :=
  register_tool mkServer "divide" "Divide two numbers" divide_tool

/-- Sample handler answering "first". -/
def firstAddHandler : List (String × PyVal) → Except String PyVal :=
  fun _ => .ok (.str "first")

/-- Sample handler answering "second". -/
def secondAddHandler : List (String × PyVal) → Except String PyVal :=
  fun _ => .ok (.str "second")

/-- A server holding one capability named "add". -/
def addFirstServer : SimpleMCPServer :=
  register_tool mkServer "add" "first add" firstAddHandler

/-- The same server after a second registration under the already-present
name "add". -/
def dupServer : SimpleMCPServer :=
  register_tool addFirstServer "add" "second add" secondAddHandler

/-- A server holding two resources registered under the same uri. -/
def dupResServer : SimpleMCPServer :=
  register_resource
    (register_resource mkServer "resource://x" "One" "text/plain" "one")
    "resource://x" "Two" "text/plain" "two"

/-- A tool call whose execution raises: the agent `calculator` is called
without its required `b` parameter (the schema requires only `operation`
and `a`, so the model boundary may legitimately produce this call). -/
def faultyCall : ToolCall :=
  { id := "call_1", name := "calculator",
    arguments := [("operation", PyVal.str "add"), ("a", PyVal.int 1)] }

/-- A tool call naming a function absent from `TOOL_FUNCTIONS`; executing it
never raises. -/
def unknownCall : ToolCall := { id := "id1", name := "nonexistent", arguments := [] }

/-- A plain final-answer assistant message. -/
def doneMsg : Message :=
  { role := .assistant, content := "done", toolCalls := [], toolCallId := "", name := "" }

/-- A final-answer assistant message for the would-have-answered oracle. -/
def answerMsg : Message :=
  { role := .assistant, content := "The answer is 2", toolCalls := [], toolCallId := "",
    name := "" }

/-- An assistant message requesting the faulting call. -/
def faultyReply : Message :=
  { role := .assistant, content := "", toolCalls := [faultyCall], toolCallId := "", name := "" }

/-- An assistant message requesting the unknown-name call. -/
def unknownReply : Message :=
  { role := .assistant, content := "", toolCalls := [unknownCall], toolCallId := "", name := "" }

/-- Model boundary that immediately answers. -/
def constAnswer : ModelBoundary := fun _ => .reply doneMsg

/-- Model boundary that always requests the faulting tool call and never
answers. -/
def alwaysFaultyTool : ModelBoundary := fun _ => .reply faultyReply

/-- Model boundary that always requests the unknown-name tool call (which
executes without raising) and never answers. -/
def alwaysUnknownTool : ModelBoundary := fun _ => .reply unknownReply

/-- Model boundary that requests the faulting call on the first turn and
would answer on any later turn (once the transcript has grown past the two
seed messages plus a reply and a tool result). -/
def faultyThenAnswer : ModelBoundary := fun msgs =>
  if 4 ≤ msgs.length then .reply answerMsg else .reply faultyReply

/-- Three tool calls A, B, C in one turn, none of which raises. -/
def tripleCalls : List ToolCall :=
  [{ id := "idA", name := "search_knowledge_base", arguments := [("query", PyVal.str "python")] },
   { id := "idB", name := "nonexistent", arguments := [] },
   { id := "idC", name := "get_weather", arguments := [("location", PyVal.str "tokyo")] }]

/-- An assistant message requesting the calls A, B, C in that order. -/
def tripleReply : Message :=
  { role := .assistant, content := "", toolCalls := tripleCalls, toolCallId := "", name := "" }

/-- Model boundary that requests the calls A, B, C on every turn. -/
def tripleModel : ModelBoundary := fun _ => .reply tripleReply

/- ### Helper lemmas -/

/-- A scan in registration order returns the first entry satisfying the
predicate, regardless of later entries. -/
theorem find?_append_first {α : Type} (p : α → Bool) (l₁ : List α) (x : α) (l₂ : List α)
    (h₁ : ∀ y ∈ l₁, p y = false) (hx : p x = true) :
    (l₁ ++ x :: l₂).find? p = Option.some x := by
  induction l₁ with
  | nil => simp [List.find?, hx]
  | cons a l ih =>
      have ha : p a = false := h₁ a (List.mem_cons_self a l)
      simp only [List.cons_append, List.find?, ha]
      exact ih (fun y hy => h₁ y (List.mem_cons_of_mem a hy))

/-- A successful scan of a prefix is unchanged by appending entries. -/
theorem find?_append_of_some {α : Type} (p : α → Bool) (l₁ l₂ : List α) (t : α)
    (h : l₁.find? p = Option.some t) : (l₁ ++ l₂).find? p = Option.some t := by
  induction l₁ with
  | nil => simp [List.find?] at h
  | cons a l ih =>
      simp only [List.cons_append, List.find?] at h ⊢
      cases hpa : p a with
      | true => simpa [hpa] using h
      | false =>
          rw [hpa] at h
          simpa [hpa] using ih h

/-- A list containing an entry satisfying the predicate has a first such
entry. -/
theorem exists_find?_of_mem {α : Type} (p : α → Bool) (l : List α)
    (h : ∃ t ∈ l, p t = true) : ∃ u, l.find? p = Option.some u := by
  induction l with
  | nil => simp at h
  | cons a l ih =>
      cases hpa : p a with
      | true => exact ⟨a, by simp [List.find?, hpa]⟩
      | false =>
          obtain ⟨t, ht, hpt⟩ := h
          rcases List.mem_cons.mp ht with rfl | htl
          · rw [hpa] at hpt; exact absurd hpt (by simp)
          · obtain ⟨u, hu⟩ := ih ⟨t, htl, hpt⟩
            exact ⟨u, by simp [List.find?, hpa, hu]⟩

/-- When every tool call in the batch executes without raising, the
sequential loop appends exactly one tool message per call, in the order
given. -/
theorem execToolMsgs_ok (tcs : List ToolCall) (msgs : List Message)
    (h : ∀ tc ∈ tcs, (execute_tool_call tc).isOk = true) :
    execToolMsgs tcs msgs =
      (msgs ++ tcs.map (fun tc => mkToolMessage tc (okValue (execute_tool_call tc))),
       Option.none) := by
  induction tcs generalizing msgs with
  | nil => simp [execToolMsgs]
  | cons tc rest ih =>
      cases hexec : execute_tool_call tc with
      | error e =>
          have hok := h tc (List.mem_cons_self tc rest)
          rw [hexec] at hok
          exact absurd hok (by simp [Except.isOk, Except.toBool])
      | ok content =>
          simp only [execToolMsgs, hexec]
          rw [ih (msgs ++ [mkToolMessage tc content])
            (fun u hu => h u (List.mem_cons_of_mem tc hu))]
          simp [hexec, okValue]

/-- The loop makes at most one model call per permitted pass. -/
theorem runFrom_modelCalls_le (model : ModelBoundary) (maxI : ℕ) :
    ∀ (fuel : ℕ) (msgs : List Message) (iter calls : ℕ),
      (runFrom model maxI fuel msgs iter calls).modelCalls ≤ calls + fuel := by
  intro fuel
  induction fuel with
  | zero => intro msgs iter calls; simp [runFrom]
  | succ fuel ih =>
      intro msgs iter calls
      cases hm : model msgs with
      | exn e => simp [runFrom, hm]
      | reply m =>
          cases hemp : m.toolCalls.isEmpty with
          | true => simp [runFrom, hm, hemp]
          | false =>
              cases hexec : execToolMsgs m.toolCalls (msgs ++ [m]) with
              | mk msgs2 opt =>
                  cases opt with
                  | none =>
                      have hrec := ih msgs2 (iter + 1) (calls + 1)
                      simp only [runFrom, hm, hemp, Bool.false_eq_true, if_false, hexec]
                      omega
                  | some e => simp [runFrom, hm, hemp, hexec]

/-- Every exit of the loop computes the post-loop ceiling report from the
final iteration counter. -/
theorem runFrom_ceilingReported (model : ModelBoundary) (maxI : ℕ) :
    ∀ (fuel : ℕ) (msgs : List Message) (iter calls : ℕ),
      (runFrom model maxI fuel msgs iter calls).ceilingReported
        = decide (maxI ≤ (runFrom model maxI fuel msgs iter calls).iteration) := by
  intro fuel
  induction fuel with
  | zero => intro msgs iter calls; simp [runFrom]
  | succ fuel ih =>
      intro msgs iter calls
      cases hm : model msgs with
      | exn e => simp [runFrom, hm]
      | reply m =>
          cases hemp : m.toolCalls.isEmpty with
          | true => simp [runFrom, hm, hemp]
          | false =>
              cases hexec : execToolMsgs m.toolCalls (msgs ++ [m]) with
              | mk msgs2 opt =>
                  cases opt with
                  | none =>
                      have hrec := ih msgs2 (iter + 1) (calls + 1)
                      simpa [runFrom, hm, hemp, hexec] using hrec
                  | some e => simp [runFrom, hm, hemp, hexec]

/-- Exhaustion of the loop means every permitted pass ran: the final counter
is the starting counter plus the permitted passes. -/
theorem runFrom_exhausted_iteration (model : ModelBoundary) (maxI : ℕ) :
    ∀ (fuel : ℕ) (msgs : List Message) (iter calls : ℕ),
      (runFrom model maxI fuel msgs iter calls).outcome = .exhausted →
      (runFrom model maxI fuel msgs iter calls).iteration = iter + fuel := by
  intro fuel
  induction fuel with
  | zero => intro msgs iter calls _; simp [runFrom]
  | succ fuel ih =>
      intro msgs iter calls h
      cases hm : model msgs with
      | exn e => simp [runFrom, hm] at h
      | reply m =>
          cases hemp : m.toolCalls.isEmpty with
          | true => simp [runFrom, hm, hemp] at h
          | false =>
              cases hexec : execToolMsgs m.toolCalls (msgs ++ [m]) with
              | mk msgs2 opt =>
                  cases opt with
                  | none =>
                      simp only [runFrom, hm, hemp] at h ⊢
                      rw [hexec] at h ⊢
                      simp only [Bool.false_eq_true, if_false] at h ⊢
                      rw [ih msgs2 (iter + 1) (calls + 1) h]
                      omega
                  | some e => simp [runFrom, hm, hemp, hexec] at h

/-- Against a model boundary that always requests a batch of tool calls, all
of which execute without raising, the loop runs every permitted pass and
exhausts its fuel, making one model call per pass. -/
theorem runFrom_alwaysTool (model : ModelBoundary)
    (H : ∀ msgs, ∃ m, model msgs = .reply m ∧ m.toolCalls ≠ [] ∧
        ∀ tc ∈ m.toolCalls, (execute_tool_call tc).isOk = true) :
    ∀ (fuel maxI : ℕ) (msgs : List Message) (iter calls : ℕ),
      (runFrom model maxI fuel msgs iter calls).outcome = .exhausted
      ∧ (runFrom model maxI fuel msgs iter calls).modelCalls = calls + fuel
      ∧ (runFrom model maxI fuel msgs iter calls).iteration = iter + fuel := by
  intro fuel
  induction fuel with
  | zero => intro maxI msgs iter calls; simp [runFrom]
  | succ fuel ih =>
      intro maxI msgs iter calls
      obtain ⟨m, hm, hne, hok⟩ := H msgs
      have hemp : m.toolCalls.isEmpty = false := by
        cases hc : m.toolCalls with
        | nil => exact absurd hc hne
        | cons a l => simp
      have hexec := execToolMsgs_ok m.toolCalls (msgs ++ [m]) hok
      have key : runFrom model maxI (fuel + 1) msgs iter calls
          = runFrom model maxI fuel
              (msgs ++ [m] ++
                m.toolCalls.map (fun tc => mkToolMessage tc (okValue (execute_tool_call tc))))
              (iter + 1) (calls + 1) := by
        simp only [runFrom, hm, hemp, Bool.false_eq_true, if_false, hexec]
      rw [key]
      obtain ⟨h1, h2, h3⟩ := ih maxI
        (msgs ++ [m] ++
          m.toolCalls.map (fun tc => mkToolMessage tc (okValue (execute_tool_call tc))))
        (iter + 1) (calls + 1)
      exact ⟨h1, by rw [h2]; omega, by rw [h3]; omega⟩

/-- A scan over entries none of which satisfies the predicate finds
nothing. -/
theorem find?_none_of_all {α : Type} (p : α → Bool) (l : List α)
    (h : ∀ y ∈ l, p y = false) : l.find? p = Option.none := by
  induction l with
  | nil => simp
  | cons a l ih =>
      have ha : p a = false := h a (List.mem_cons_self a l)
      simp only [List.find?, ha]
      exact ih (fun y hy => h y (List.mem_cons_of_mem a hy))

/-- Bind on a successful `Except` steps into the continuation. -/
theorem except_bind_ok {α β : Type} (x : α) (f : α → Except String β) :
    (Except.ok x : Except String α) >>= f = f x := rfl

/-- Bind on a raised `Except` short-circuits. -/
theorem except_bind_error {α β : Type} (e : String) (f : α → Except String β) :
    (Except.error e : Except String α) >>= f = Except.error e := rfl

/-- Map on a successful `Except` applies the function. -/
theorem except_map_ok {α β : Type} (f : α → β) (x : α) :
    f <$> (Except.ok x : Except String α) = Except.ok (f x) := rfl

/-- Map on a raised `Except` short-circuits. -/
theorem except_map_error {α β : Type} (f : α → β) (e : String) :
    f <$> (Except.error e : Except String α) = Except.error e := rfl

/- ### The claims -/

/-- Claim C9: after registering the source's arithmetic capability (the
calculator, whose "add" operation computes `a + b`), invoking it with
`{a: 15, b: 27}` returns the success envelope whose computed value is 42
(rendered `42.0` by Python float `str()`): the exact end-to-end text is
`add(15, 27) = 42.0`, and the underlying arithmetic result is the rational
42. -/
theorem claim_C9 :
    call_tool calcServer "calculator"
        [("operation", PyVal.str "add"), ("a", PyVal.int 15), ("b", PyVal.int 27)]
      = ToolResponse.content "add(15, 27) = 42.0"
    ∧ calcOp "add" (PyRat.ofInt 15) (PyRat.ofInt 27) = PyVal.float (PyRat.ofInt 42) :=
  ⟨rfl, by decide⟩

/-- Claim C3, counterexample: invoking the unregistered capability
`subtract` on the MCP server yields the constant envelope
`{"error": "Tool not found"}`, which does not carry the requested name
`subtract` (so the claimed `Failure(UnknownCapability, "subtract")` shape
does not hold on this dispatcher). -/
theorem claim_C3_counterexample :
    call_tool mkServer "subtract" [] = ToolResponse.error "Tool not found"
    ∧ strContains "Tool not found" "subtract" = false :=
  ⟨rfl, rfl⟩

/-- Claim C3, amended: dispatch of an unregistered name never raises and
always returns an error envelope, but the name-carrying differs by
dispatcher: the MCP server's `call_tool` returns the constant
`{"error": "Tool not found"}` without the requested name, while the agent's
`execute_tool_call` returns the serialized
`{"error": "Unknown function: <name>"}` carrying the requested name. -/
theorem claim_C3_amended :
    (∀ (server : SimpleMCPServer) (name : String) (args : List (String × PyVal)),
        (∀ t ∈ server.tools, (t.name == name) = false) →
        call_tool server name args = ToolResponse.error "Tool not found")
    ∧ (∀ tc : ToolCall, TOOL_FUNCTIONS.lookup tc.name = Option.none →
        execute_tool_call tc
          = Except.ok (jsonDict [("error", PyVal.str ("Unknown function: " ++ tc.name))])) := by
  constructor
  · intro server name args hall
    simp [call_tool, find?_none_of_all _ server.tools hall]
  · intro tc hlk
    simp [execute_tool_call, hlk]

/-- Claim C3, witness for the amended claim: the empty demo server has no
`subtract` capability and dispatch returns the constant error envelope; the
agent dispatcher returns the name-carrying envelope for the unknown
`nonexistent` function. -/
theorem claim_C3_amended_witness :
    call_tool mkServer "subtract" [] = ToolResponse.error "Tool not found"
    ∧ execute_tool_call unknownCall
        = Except.ok (jsonDict [("error", PyVal.str ("Unknown function: " ++ unknownCall.name))]) :=
  ⟨claim_C3_amended.1 mkServer "subtract" [] (by simp [mkServer]),
   claim_C3_amended.2 unknownCall rfl⟩

/-- Claim C4, counterexample: the registered schema of the echo capability
declares no properties at all, yet the invocation with the argument name
`message` — unknown to that schema — reaches the handler and succeeds
instead of being rejected with a `SchemaViolation`: the handler is invoked
with unvalidated input. -/
theorem claim_C4_counterexample :
    echoServer.tools.map (fun t => t.inputSchema.properties) = [[]]
    ∧ call_tool echoServer "echo" [("message", PyVal.str "Hello, MCP!")]
        = ToolResponse.content "Echo: Hello, MCP!" :=
  ⟨rfl, rfl⟩

/-- Claim C4, amended: no argument validation is performed before dispatch.
The schema attached by `register_tool` is the constant empty-properties
object, and `call_tool` passes the raw arguments directly to the handler of
the first matching tool, so no required/type/enum checking and no
unknown-name rejection occur before the handler runs; argument-binding
faults surface only as exceptions caught into the generic error envelope. -/
theorem claim_C4_amended :
    ∀ (server : SimpleMCPServer) (name d : String)
      (h : List (String × PyVal) → Except String PyVal) (args : List (String × PyVal)),
      (∀ t ∈ server.tools, (t.name == name) = false) →
      call_tool (register_tool server name d h) name args
        = runTool
            { name := name, description := d, handler := h,
              inputSchema := { schemaType := "object", properties := [] } } args := by
  intro server name d h args hall
  have hsrv : (register_tool server name d h).tools
      = server.tools ++
        ({ name := name, description := d, handler := h,
           inputSchema := { schemaType := "object", properties := [] } } : Tool) :: [] := by
    simp [register_tool]
  have hfind := find?_append_first (fun t : Tool => t.name == name) server.tools
    { name := name, description := d, handler := h,
      inputSchema := { schemaType := "object", properties := [] } } [] hall (by simp)
  simp [call_tool, hsrv, hfind]

/-- Claim C4, witness for the amended claim: registering echo on the empty
server and invoking it passes the raw `message` argument straight to the
handler. -/
theorem claim_C4_amended_witness :
    call_tool (register_tool mkServer "echo" "Echo back a message" echo_tool) "echo"
        [("message", PyVal.str "Hello, MCP!")]
      = runTool
          { name := "echo", description := "Echo back a message", handler := echo_tool,
            inputSchema := { schemaType := "object", properties := [] } }
          [("message", PyVal.str "Hello, MCP!")] :=
  claim_C4_amended mkServer "echo" "Echo back a message" echo_tool
    [("message", PyVal.str "Hello, MCP!")] (by simp [mkServer])

/-- Claim C5, counterexample: registering a second capability under the
already-present name "add" does not fail with `DuplicateCapability`: it
silently appends a second entry, so names are no longer unique within the
registry (dispatch still reaches the first entry). -/
theorem claim_C5_counterexample :
    dupServer.tools.map Tool.name = ["add", "add"]
    ∧ call_tool dupServer "add" [] = ToolResponse.content "first" :=
  ⟨rfl, rfl⟩

/-- Claim C5, amended: re-registration under an existing name does not fail
and does not overwrite: it appends one more entry (so name uniqueness is NOT
maintained), and because dispatch scans in registration order, every
invocation of that name keeps hitting the originally registered handler —
the duplicate entry is inert. -/
theorem claim_C5_amended :
    ∀ (server : SimpleMCPServer) (name d : String)
      (h : List (String × PyVal) → Except String PyVal) (args : List (String × PyVal)),
      (register_tool server name d h).tools.length = server.tools.length + 1
      ∧ ((∃ t ∈ server.tools, (t.name == name) = true) →
          call_tool (register_tool server name d h) name args = call_tool server name args) := by
  intro server name d h args
  constructor
  · simp [register_tool]
  · intro hex
    obtain ⟨u, hu⟩ := exists_find?_of_mem (fun t : Tool => t.name == name) server.tools hex
    have hsrv : (register_tool server name d h).tools
        = server.tools ++
          [{ name := name, description := d, handler := h,
             inputSchema := { schemaType := "object", properties := [] } }] := by
      simp [register_tool]
    have happ := find?_append_of_some (fun t : Tool => t.name == name) server.tools
      [{ name := name, description := d, handler := h,
         inputSchema := { schemaType := "object", properties := [] } }] u hu
    simp [call_tool, hsrv, happ, hu]

/-- Claim C5, witness for the amended claim: after duplicating "add", the
registry has one more entry and dispatch of "add" behaves exactly as before
the duplicate registration. -/
theorem claim_C5_amended_witness :
    dupServer.tools.length = addFirstServer.tools.length + 1
    ∧ call_tool dupServer "add" [] = call_tool addFirstServer "add" [] :=
  ⟨(claim_C5_amended addFirstServer "add" "second add" secondAddHandler []).1,
   (claim_C5_amended addFirstServer "add" "second add" secondAddHandler []).2
     ⟨{ name := "add", description := "first add", handler := firstAddHandler,
        inputSchema := { schemaType := "object", properties := [] } },
      List.Mem.head _, rfl⟩⟩

/-- Claim C10: lookup scans the registration list in insertion order and
returns the first match, so when two tools share a name (or two resources
share a uri), every dispatch deterministically reaches the
earliest-registered entry and a later duplicate is never dispatched. -/
theorem claim_C10 :
    (∀ (server : SimpleMCPServer) (name : String) (args : List (String × PyVal))
        (l₁ : List Tool) (t : Tool) (l₂ : List Tool),
        server.tools = l₁ ++ t :: l₂ → (t.name == name) = true →
        (∀ u ∈ l₁, (u.name == name) = false) →
        call_tool server name args = runTool t args)
    ∧ (∀ (server : SimpleMCPServer) (uri : String)
        (r₁ : List Resource) (r : Resource) (r₂ : List Resource),
        server.resources = r₁ ++ r :: r₂ → (r.uri == uri) = true →
        (∀ u ∈ r₁, (u.uri == uri) = false) →
        read_resource server uri = ResourceResponse.contents r.uri r.mimeType r.content) := by
  constructor
  · intro server name args l₁ t l₂ hsrv ht hl
    simp [call_tool, hsrv, find?_append_first (fun u : Tool => u.name == name) l₁ t l₂ hl ht]
  · intro server uri r₁ r r₂ hsrv hr hl
    simp [read_resource, hsrv,
      find?_append_first (fun u : Resource => u.uri == uri) r₁ r r₂ hl hr]

/-- Claim C10, witness: on the registry holding two tools named "add" (and
two resources under one uri), dispatch reaches the first-registered handler
(answering "first") and resource reads return the first-registered content
("one"). -/
theorem claim_C10_witness :
    call_tool dupServer "add" [] = ToolResponse.content "first"
    ∧ read_resource dupResServer "resource://x"
        = ResourceResponse.contents "resource://x" "text/plain" "one" := by
  constructor
  · exact (claim_C10.1 dupServer "add" [] []
      { name := "add", description := "first add", handler := firstAddHandler,
        inputSchema := { schemaType := "object", properties := [] } }
      [{ name := "add", description := "second add", handler := secondAddHandler,
         inputSchema := { schemaType := "object", properties := [] } }]
      rfl rfl (by simp)).trans rfl
  · exact (claim_C10.2 dupResServer "resource://x" []
      { uri := "resource://x", name := "One", mimeType := "text/plain",
        description := "Resource: One", content := "one" }
      [{ uri := "resource://x", name := "Two", mimeType := "text/plain",
         description := "Resource: Two", content := "two" }]
      rfl rfl (by simp)).trans rfl

/-- Claim C8: a string-encoded number supplied against the calculator's
numeric parameters is coerced by `float()` before the arithmetic uses it
(coerced "15"/"27" produce the same 42.0 envelope as native numbers), and a
non-numeric string makes the invocation fail with the caught-conversion
error envelope — never treated as zero and never an uncaught exception. -/
theorem claim_C8 :
    call_tool calcServer "calculator"
        [("operation", PyVal.str "add"), ("a", PyVal.str "15"), ("b", PyVal.str "27")]
      = ToolResponse.content "add(15, 27) = 42.0"
    ∧ (∀ (s : String) (w : PyVal), parseFloat? s = Option.none →
        call_tool calcServer "calculator"
            [("operation", PyVal.str "add"), ("a", PyVal.str s), ("b", w)]
          = ToolResponse.error ("could not convert string to float: " ++ s)) := by
  constructor
  · rfl
  · intro s w h
    have ha : pyFloatE (PyVal.str s)
        = Except.error ("could not convert string to float: " ++ s) := by
      simp [pyFloatE, h]
    show runTool
        { name := "calculator", description := "Perform basic arithmetic operations",
          handler := calculator_tool, inputSchema := { schemaType := "object", properties := [] } }
        [("operation", PyVal.str "add"), ("a", PyVal.str s), ("b", w)] = _
    simp [runTool, calculator_tool, checkKwargNames, bindKwarg, List.lookup, ha,
      except_bind_ok, except_bind_error, except_map_ok, except_map_error]

/-- Claim C8, witness: the non-numeric string "abc" against the numeric
parameter `a` yields the caught-conversion error envelope. -/
theorem claim_C8_witness :
    call_tool calcServer "calculator"
        [("operation", PyVal.str "add"), ("a", PyVal.str "abc"), ("b", PyVal.int 1)]
      = ToolResponse.error "could not convert string to float: abc" :=
  claim_C8.2 "abc" (PyVal.int 1) (by decide)

/-- Claim C6, counterexample: a session that produces its final answer on
the last permitted iteration is NOT reported as answered only — the
post-loop `iteration >= max_iterations` report also fires, so the terminal
outcome simultaneously reports the answer and the ceiling, contradicting
the claimed mutual exclusivity. -/
theorem claim_C6_counterexample :
    (run_agent constAnswer "hi" 1).outcome = AgentOutcome.answered "done"
    ∧ (run_agent constAnswer "hi" 1).ceilingReported = true :=
  ⟨rfl, rfl⟩

/-- Claim C6, amended: every terminal outcome of the loop is one of the
three shapes answered(text), errored(detail) (covering both model-boundary
failures and tool-execution faults) or ceiling exhaustion; exhaustion always
fires the ceiling report, but the report is computed from the final counter
alone, so a session that answers on its last permitted iteration fires the
ceiling report as well (the two reports are not mutually exclusive). -/
theorem claim_C6_amended :
    ∀ (model : ModelBoundary) (q : String) (n : ℕ),
      ((∃ t, (run_agent model q n).outcome = AgentOutcome.answered t)
        ∨ (∃ e, (run_agent model q n).outcome = AgentOutcome.errored e)
        ∨ (run_agent model q n).outcome = AgentOutcome.exhausted)
      ∧ ((run_agent model q n).outcome = AgentOutcome.exhausted →
          (run_agent model q n).ceilingReported = true)
      ∧ (n ≤ (run_agent model q n).iteration →
          (run_agent model q n).ceilingReported = true) := by
  intro model q n
  refine ⟨?_, ?_, ?_⟩
  · cases h : (run_agent model q n).outcome with
    | answered t => exact Or.inl ⟨t, rfl⟩
    | errored e => exact Or.inr (Or.inl ⟨e, rfl⟩)
    | exhausted => exact Or.inr (Or.inr rfl)
  · intro h
    have hiter := runFrom_exhausted_iteration model n n (initialMessages q) 0 0 h
    have hceil := runFrom_ceilingReported model n n (initialMessages q) 0 0
    rw [hiter] at hceil
    rw [show (run_agent model q n).ceilingReported = _ from hceil]
    simp only [decide_eq_true_eq]
    omega
  · intro h
    have hceil := runFrom_ceilingReported model n n (initialMessages q) 0 0
    rw [show (run_agent model q n).ceilingReported = _ from hceil]
    simp only [decide_eq_true_eq]
    exact h

/-- Claim C6, witness for the amended claim: the immediately-answering
session with ceiling 1 reaches the ceiling on its answering iteration and
fires the ceiling report. -/
theorem claim_C6_amended_witness :
    (run_agent constAnswer "hi" 1).ceilingReported = true :=
  (claim_C6_amended constAnswer "hi" 1).2.2 (by decide)

/-- Claim C7: when a model turn names multiple tool calls, they are
dispatched strictly in the order given (provided each executes without
raising — a raising call aborts the turn, see C2), and the resulting
tool-result messages are appended to the transcript in exactly that order,
each carrying the id of the request that produced it. -/
theorem claim_C7 :
    ∀ (model : ModelBoundary) (maxI fuel : ℕ) (msgs : List Message)
      (iter calls : ℕ) (m : Message),
      model msgs = ModelOutcome.reply m →
      m.toolCalls ≠ [] →
      (∀ tc ∈ m.toolCalls, (execute_tool_call tc).isOk = true) →
      runFrom model maxI (fuel + 1) msgs iter calls
        = runFrom model maxI fuel
            (msgs ++ m ::
              m.toolCalls.map (fun tc => mkToolMessage tc (okValue (execute_tool_call tc))))
            (iter + 1) (calls + 1)
      ∧ (m.toolCalls.map (fun tc => mkToolMessage tc (okValue (execute_tool_call tc)))).map
            Message.toolCallId
          = m.toolCalls.map ToolCall.id := by
  intro model maxI fuel msgs iter calls m hm hne hok
  have hemp : m.toolCalls.isEmpty = false := by
    cases hc : m.toolCalls with
    | nil => exact absurd hc hne
    | cons a l => simp
  have hexec := execToolMsgs_ok m.toolCalls (msgs ++ [m]) hok
  constructor
  · rw [List.append_cons]
    simp only [runFrom, hm, hemp, Bool.false_eq_true, if_false, hexec]
  · simp [mkToolMessage, List.map_map, Function.comp]

/-- Claim C7, witness: against a model turn naming the calls A, B, C (a
knowledge-base search, an unknown function, a weather lookup — none of which
raises), one loop pass appends the assistant turn followed by the three
tool-result turns, and their ids line up with the requests in order
[idA, idB, idC]. -/
theorem claim_C7_witness :
    runFrom tripleModel 5 3 (initialMessages "q") 0 0
      = runFrom tripleModel 5 2
          (initialMessages "q" ++ tripleReply ::
            tripleReply.toolCalls.map
              (fun tc => mkToolMessage tc (okValue (execute_tool_call tc))))
          1 1
    ∧ (tripleReply.toolCalls.map
          (fun tc => mkToolMessage tc (okValue (execute_tool_call tc)))).map
          Message.toolCallId
        = tripleReply.toolCalls.map ToolCall.id :=
  claim_C7 tripleModel 5 2 (initialMessages "q") 0 0 tripleReply rfl (by decide) (by decide)

/-- Claim C1, counterexample: a session with ceiling 3 whose model boundary
always requests a tool call (never answers) need not terminate in the
ceiling-aborted state after exactly 3 model calls: when the requested call
raises during execution, the loop breaks on iteration 1 with an error
outcome — one model call, no ceiling report. -/
theorem claim_C1_counterexample :
    (run_agent alwaysFaultyTool "q" 3).outcome
        = AgentOutcome.errored "missing required argument: b"
    ∧ (run_agent alwaysFaultyTool "q" 3).modelCalls = 1
    ∧ (run_agent alwaysFaultyTool "q" 3).ceilingReported = false :=
  ⟨rfl, rfl, rfl⟩

/-- Claim C1, amended: (1) for every session the loop makes at most
`max_iterations` model calls before any terminal state; (2) a session with
ceiling 0 makes no model call and immediately reports the iteration ceiling;
(3) a session with ceiling 3 whose model boundary always requests tool calls
(never answers), each of which executes without raising, exhausts the loop
in the ceiling-reported state after exactly 3 model calls. -/
theorem claim_C1_amended :
    (∀ (model : ModelBoundary) (q : String) (n : ℕ),
        (run_agent model q n).modelCalls ≤ n)
    ∧ (∀ (model : ModelBoundary) (q : String),
        run_agent model q 0
          = { outcome := AgentOutcome.exhausted, messages := initialMessages q,
              iteration := 0, modelCalls := 0, ceilingReported := true })
    ∧ (∀ (model : ModelBoundary) (q : String),
        (∀ msgs, ∃ m, model msgs = ModelOutcome.reply m ∧ m.toolCalls ≠ [] ∧
            ∀ tc ∈ m.toolCalls, (execute_tool_call tc).isOk = true) →
        (run_agent model q 3).outcome = AgentOutcome.exhausted
        ∧ (run_agent model q 3).modelCalls = 3
        ∧ (run_agent model q 3).ceilingReported = true) := by
  refine ⟨?_, ?_, ?_⟩
  · intro model q n
    have := runFrom_modelCalls_le model n n (initialMessages q) 0 0
    simpa using this
  · intro model q
    rfl
  · intro model q H
    obtain ⟨h1, h2, h3⟩ := runFrom_alwaysTool model H 3 3 (initialMessages q) 0 0
    refine ⟨h1, by simpa using h2, ?_⟩
    have hceil := runFrom_ceilingReported model 3 3 (initialMessages q) 0 0
    rw [h3] at hceil
    simpa using hceil

/-- Claim C1, witness for the amended claim: the boundary that always
requests the (non-raising) unknown-function call exhausts a ceiling-3
session after exactly 3 model calls with the ceiling reported. -/
theorem claim_C1_amended_witness :
    (run_agent alwaysUnknownTool "q" 3).outcome = AgentOutcome.exhausted
    ∧ (run_agent alwaysUnknownTool "q" 3).modelCalls = 3
    ∧ (run_agent alwaysUnknownTool "q" 3).ceilingReported = true :=
  claim_C1_amended.2.2 alwaysUnknownTool "q"
    (fun _ => ⟨unknownReply, rfl, by decide, by decide⟩)

/-- Claim C2, counterexample: a fault raised by a tool handler is NOT caught
at the agent's dispatch boundary (`execute_tool_call` re-raises it), and it
DOES terminate the orchestration loop: against a boundary that requests the
faulting calculator call and would answer on any later turn, the session
ends after one model call with the error outcome instead of continuing. -/
theorem claim_C2_counterexample :
    execute_tool_call faultyCall = Except.error "missing required argument: b"
    ∧ (run_agent faultyThenAnswer "What is 1 + 1?" 5).outcome
        = AgentOutcome.errored "missing required argument: b"
    ∧ (run_agent faultyThenAnswer "What is 1 + 1?" 5).modelCalls = 1 :=
  ⟨rfl, rfl, rfl⟩

/-- Claim C2, amended: the two dispatch boundaries differ.  In the MCP
server, a fault raised by the handler is caught inside `call_tool` and
returned as the `{"error": message}` envelope, never escaping dispatch.  In
the agent, a fault raised during tool execution propagates out of
`execute_tool_call` into the loop's single try/except, which breaks: the
session terminates early in the error state rather than continuing. -/
theorem claim_C2_amended :
    (∀ (server : SimpleMCPServer) (name : String) (args : List (String × PyVal))
        (t : Tool) (e : String),
        server.tools.find? (fun u => u.name == name) = Option.some t →
        t.handler args = Except.error e →
        call_tool server name args = ToolResponse.error e)
    ∧ (∀ (model : ModelBoundary) (maxI fuel : ℕ) (msgs : List Message)
        (iter calls : ℕ) (m : Message) (msgs2 : List Message) (e : String),
        model msgs = ModelOutcome.reply m →
        m.toolCalls.isEmpty = false →
        execToolMsgs m.toolCalls (msgs ++ [m]) = (msgs2, Option.some e) →
        runFrom model maxI (fuel + 1) msgs iter calls
          = { outcome := AgentOutcome.errored e, messages := msgs2,
              iteration := iter + 1, modelCalls := calls + 1,
              ceilingReported := decide (maxI ≤ iter + 1) }) := by
  constructor
  · intro server name args t e hfind hh
    simp [call_tool, hfind, runTool, hh]
  · intro model maxI fuel msgs iter calls m msgs2 e hm hemp hexec
    simp only [runFrom, hm, hemp, Bool.false_eq_true, if_false, hexec]

/-- Claim C2, witness for the amended claim: the MCP `divide` capability
raising on a zero divisor is caught into the error envelope, while the
agent session facing the faulting calculator call breaks out of its loop on
iteration 1 with the error outcome. -/
theorem claim_C2_amended_witness :
    call_tool divServer "divide" [("a", PyVal.int 5), ("b", PyVal.int 0)]
        = ToolResponse.error "division by zero"
    ∧ runFrom alwaysFaultyTool 5 5 (initialMessages "q") 0 0
        = { outcome := AgentOutcome.errored "missing required argument: b",
            messages := initialMessages "q" ++ [faultyReply],
            iteration := 1, modelCalls := 1, ceilingReported := false } :=
  ⟨claim_C2_amended.1 divServer "divide" [("a", PyVal.int 5), ("b", PyVal.int 0)]
      { name := "divide", description := "Divide two numbers", handler := divide_tool,
        inputSchema := { schemaType := "object", properties := [] } }
      "division by zero" rfl rfl,
   claim_C2_amended.2 alwaysFaultyTool 5 4 (initialMessages "q") 0 0 faultyReply
      (initialMessages "q" ++ [faultyReply]) "missing required argument: b" rfl rfl rfl⟩
